import Mathlib

/-!
Shallow embedding of the statistical computation engine of the
`new-statistical-webapp` repository, together with proofs checking the
natural-language specification against it.

Numeric model: JSON/JS numbers that the engine only combines with field
operations and comparisons are modelled as `ℚ` (keeping everything
decidable/executable); quantities whose computation goes through `sqrt`
or `exp` are modelled as `ℝ`.

Embedded code:
* `src/server.js` — `factorial`, `comb`, `erf`, `normalCDF`,
  `calculateStats`, `generatePoisson`, the parameter validator, and the
  two calculation/generation HTTP dispatchers (modelled up to the point
  kernel they select: the dispatch result records which kernel would run
  with which arguments, or the error returned instead).
* `src/client/components/PairedMeanCI.tsx` — the known-variance branch
  of `handleCalculate`.
* `src/client/components/AIDataGenerator.tsx` (`TwoSampleCIComponent`)
  — the known-variance branches of `calculate` (paired and independent).
The client components import `getZCriticalValue` from a
`utils/statistics` module that is not part of the provided sources, so
every embedded function takes the critical-value function(s) as an
explicit parameter.
-/

namespace StatWebapp

/-! ### SpecialFunctions (src/server.js) -/

/-- `factorial(n)` from `src/server.js`: `if (n < 0) return 0; if (n === 0 || n === 1)
return 1;` then the loop `for (let i = 2; i <= n; i++) result *= i`, which runs
`n - 1` times with factors `2, 3, …, n`. -/
def factorial (n : ℤ) : ℤ :=
  if n < 0 then 0
  else if n = 0 ∨ n = 1 then 1
  else (List.range (n.toNat - 1)).foldl (fun (r : ℤ) (i : ℕ) => r * ((i : ℤ) + 2)) 1

/-- `comb(n, k)` from `src/server.js`: guard `k < 0 || k > n`, boundary
`k === 0 || k === n`, the symmetry `k = Math.min(k, n - k)`, then the loop
`c = c * (n - i) / (i + 1)` for `i = 0 … k-1` (carried out in `ℚ`, mirroring
the exact rational value of the floating-point recurrence). -/
def comb (n k : ℤ) : ℚ :=
  if k < 0 ∨ k > n then 0
  else if k = 0 ∨ k = n then 1
  else
    let k2 := min k (n - k)
    (List.range k2.toNat).foldl (fun (c : ℚ) (i : ℕ) => c * ((n : ℚ) - (i : ℚ)) / ((i : ℚ) + 1)) 1

/-- `erf(x)` from `src/server.js`: Abramowitz–Stegun 7.1.26 polynomial evaluated
on `|x|`, with the sign of the original input reapplied. -/
noncomputable def erf (x : ℝ) : ℝ :=
  let a1 : ℝ := 0.254829592
  let a2 : ℝ := -0.284496736
  let a3 : ℝ := 1.421413741
  let a4 : ℝ := -1.453152027
  let a5 : ℝ := 1.061405429
  let p : ℝ := 0.3275911
  let sign : ℝ := if x ≥ 0 then 1 else -1
  let x := |x|
  let t := 1.0 / (1.0 + p * x)
  let y := 1.0 - (((((a5 * t + a4) * t) + a3) * t + a2) * t + a1) * t * Real.exp (-x * x)
  sign * y

/-- `normalCDF(x, mu, sigma)` from `src/server.js`:
`0.5 * (1 + erf(z / Math.sqrt(2)))` with `z = (x - mu) / sigma`. -/
noncomputable def normalCDF (x mu sigma : ℝ) : ℝ :=
  let z := (x - mu) / sigma
  0.5 * (1 + erf (z / Real.sqrt 2))

/-! ### DescriptiveStats (src/server.js) -/

/-- Result record of `calculateStats` in `src/server.js`. -/
structure Stats where
  mean : ℚ
  median : ℚ
  variance : ℚ
  stdDev : ℝ
  min : ℚ
  max : ℚ
  q1 : ℚ
  q3 : ℚ
  count : ℕ

/-- `calculateStats(data)` from `src/server.js`.  `[...data].sort((a, b) => a - b)`
is the ascending sort of a copy, modelled by `List.mergeSort`; the JS reduces are
modelled by `List.foldl`; `sortedData[i]` accesses are in range for the non-empty
samples the callers pass, so the `getD` default is never consulted there. -/
noncomputable def calculateStats (data : List ℚ) : Stats :=
  let n := data.length
  let mean := data.foldl (· + ·) 0 / (n : ℚ)
  let sortedData := data.mergeSort (fun a b => a ≤ b)
  let median :=
    if n % 2 = 0 then (sortedData.getD (n / 2 - 1) 0 + sortedData.getD (n / 2) 0) / 2
    else sortedData.getD (n / 2) 0
  let variance := data.foldl (fun a b => a + (b - mean) ^ 2) 0 / (n : ℚ)
  let stdDev := Real.sqrt (variance : ℝ)
  let min := sortedData.getD 0 0
  let max := sortedData.getD (n - 1) 0
  let q1 := sortedData.getD (((n : ℚ) * 0.25).floor.toNat) 0
  let q3 := sortedData.getD (((n : ℚ) * 0.75).floor.toNat) 0
  { mean := mean, median := median, variance := variance, stdDev := stdDev,
    min := min, max := max, q1 := q1, q3 := q3, count := n }

/-- State-passing view of one `calculateStats` call: the source sorts a spread
copy (`[...data].sort`), never the caller's array, so the call hands the
caller's array back unchanged alongside the result. -/
noncomputable def calculateStatsCall (data : List ℚ) : Stats × List ℚ :=
  (calculateStats data, data)

/-! ### Poisson sampler (src/server.js) -/

/-- The Knuth loop of `generatePoisson` in `src/server.js`:
`while (p > l) { k++; p *= Math.random(); }` followed by `data.push(k - 1)`.
`us` is the stream of `Math.random()` values, indexed by iteration; `fuel`
bounds the number of iterations (the JS loop has no bound, so running out of
fuel yields `none`). -/
noncomputable def generatePoissonLoop (l : ℝ) (us : ℕ → ℝ) :
    ℕ → ℕ → ℝ → Option ℤ
  | 0, _, _ => none
  | fuel + 1, k, p =>
    if p > l then generatePoissonLoop l us fuel (k + 1) (p * us k)
    else some ((k : ℤ) - 1)

/-- One variate of `generatePoisson(lambda, count)`: `k = 0`, `p = 1`,
`l = Math.exp(-lambda)`, then the Knuth loop. -/
noncomputable def generatePoissonOne (lambda : ℝ) (us : ℕ → ℝ) (fuel : ℕ) : Option ℤ :=
  generatePoissonLoop (Real.exp (-lambda)) us fuel 0 1

/-- `generatePoisson(lambda, count)` from `src/server.js`: `count` independent
variates.  `uss i` is the random stream consumed by the `i`-th variate (the
source consumes one global stream; giving each variate its own stream is the
same model up to re-indexing of the random source). -/
noncomputable def generatePoisson (lambda : ℝ) (uss : ℕ → ℕ → ℝ) (fuel : ℕ) :
    ℕ → Option (List ℤ)
  | 0 => some []
  | count + 1 => do
    let v ← generatePoissonOne lambda (uss count) fuel
    let rest ← generatePoisson lambda uss fuel count
    pure (v :: rest)

/-! ### Distribution catalog and HTTP dispatch (src/server.js) -/

/-- One entry of `availableDistributions` in `src/server.js`. -/
structure Distribution where
  name : String
  displayName : String
  descriptionText : String
  parameters : List String
  constraints : List (String × String)
deriving DecidableEq

/-- The fixed `availableDistributions` catalog from `src/server.js`. -/
def availableDistributions : List Distribution :=
  [ { name := "normal", displayName := "Normal Distribution",
      descriptionText := "Gaussian distribution characterized by mean and standard deviation",
      parameters := ["mu", "sigma"], constraints := [("mu", "any"), ("sigma", ">0")] },
    { name := "uniform", displayName := "Uniform Distribution",
      descriptionText := "Constant probability over a specified range",
      parameters := ["a", "b"], constraints := [("a", "any"), ("b", ">a")] },
    { name := "binomial", displayName := "Binomial Distribution",
      descriptionText := "Discrete probability of successes in a fixed number of trials",
      parameters := ["n", "p"], constraints := [("n", "integer>0"), ("p", "0<=p<=1")] },
    { name := "poisson", displayName := "Poisson Distribution",
      descriptionText := "Discrete probability of a given number of events occurring",
      parameters := ["lambda"], constraints := [("lambda", ">0")] },
    { name := "exponential", displayName := "Exponential Distribution",
      descriptionText := "Continuous probability describing the time between events",
      parameters := ["lambda"], constraints := [("lambda", ">0")] },
    { name := "gamma", displayName := "Gamma Distribution",
      descriptionText := "Two-parameter family of continuous probability distributions",
      parameters := ["shape", "rate"], constraints := [("shape", ">0"), ("rate", ">0")] } ]

/-- A JSON `parameters` object: a finite map from parameter names to numbers. -/
abbrev Params := List (String × ℚ)

/-- Property access `parameters.foo` (used only after presence validation, so
the default is never consulted on validated inputs). -/
def getParam (ps : Params) (k : String) : ℚ := (ps.lookup k).getD 0

/-- `validateParameters(distribution, parameters)` from `src/server.js`:
all declared parameters present, then the per-distribution constraint switch. -/
def validateParameters (dist : Distribution) (ps : Params) : Bool :=
  dist.parameters.all (fun param => (ps.lookup param).isSome) &&
    match dist.name with
    | "normal" => decide (0 < getParam ps "sigma")
    | "uniform" => decide (getParam ps "a" < getParam ps "b")
    | "binomial" =>
        decide ((getParam ps "n").den = 1) && decide (0 < getParam ps "n") &&
          decide (0 ≤ getParam ps "p") && decide (getParam ps "p" ≤ 1)
    | "poisson" => decide (0 < getParam ps "lambda")
    | "exponential" => decide (0 < getParam ps "lambda")
    | "gamma" => decide (0 < getParam ps "shape") && decide (0 < getParam ps "rate")
    | _ => true

/-- The point-evaluation kernel the calculate route hands the request to, with
its arguments; the route is embedded up to this selection (the claims about the
route concern which kernel, if any, is invoked — not the kernel values). -/
inductive CalcCall where
  | normalPDF (x mu sigma : ℚ)
  | normalCDF (x mu sigma : ℚ)
  | uniformPDF (x a b : ℚ)
  | uniformCDF (x a b : ℚ)
  | binomialPMF (x n p : ℚ)
  | binomialCDF (x n p : ℚ)
  | poissonPMF (x lambda : ℚ)
  | poissonCDF (x lambda : ℚ)
  | exponentialPDF (x lambda : ℚ)
  | exponentialCDF (x lambda : ℚ)
  | gammaPDF (x shape rate : ℚ)
deriving DecidableEq

/-- `POST /api/distributions/:name/calculate` from `src/server.js`: missing-input
check, catalog lookup, parameter validation, then the `switch (name)` dispatch
with its per-distribution `type` checks.  `none` for `parameters`/`x` models an
absent JSON field; `type` defaults to `"pdf"` at the call site. -/
def calculateRoute (name : String) (parameters : Option Params) (x : Option ℚ)
    (type : String) : Except String CalcCall :=
  match parameters, x with
  | none, _ => .error "Missing parameters or x value"
  | some _, none => .error "Missing parameters or x value"
  | some ps, some xv =>
    match availableDistributions.find? (fun d => d.name == name) with
    | none => .error "Distribution not found"
    | some dist =>
      if ¬ validateParameters dist ps then .error "Invalid parameters"
      else
        match name with
        | "normal" =>
          if type = "pdf" then .ok (.normalPDF xv (getParam ps "mu") (getParam ps "sigma"))
          else if type = "cdf" then .ok (.normalCDF xv (getParam ps "mu") (getParam ps "sigma"))
          else .error "Invalid calculation type"
        | "uniform" =>
          if type = "pdf" then .ok (.uniformPDF xv (getParam ps "a") (getParam ps "b"))
          else if type = "cdf" then .ok (.uniformCDF xv (getParam ps "a") (getParam ps "b"))
          else .error "Invalid calculation type"
        | "binomial" =>
          if type = "pmf" then .ok (.binomialPMF xv (getParam ps "n") (getParam ps "p"))
          else if type = "cdf" then .ok (.binomialCDF xv (getParam ps "n") (getParam ps "p"))
          else .error "Invalid calculation type"
        | "poisson" =>
          if type = "pmf" then .ok (.poissonPMF xv (getParam ps "lambda"))
          else if type = "cdf" then .ok (.poissonCDF xv (getParam ps "lambda"))
          else .error "Invalid calculation type"
        | "exponential" =>
          if type = "pdf" then .ok (.exponentialPDF xv (getParam ps "lambda"))
          else if type = "cdf" then .ok (.exponentialCDF xv (getParam ps "lambda"))
          else .error "Invalid calculation type"
        | "gamma" =>
          if type = "pdf" then .ok (.gammaPDF xv (getParam ps "shape") (getParam ps "rate"))
          else .error "Only PDF calculation available for gamma distribution"
        | _ => .error "Calculation not implemented for this distribution"

/-- The sampler the generate route hands the request to, with its arguments. -/
inductive GenCall where
  | normal (mu sigma : ℚ) (count : ℚ)
  | uniform (a b : ℚ) (count : ℚ)
  | binomial (n p : ℚ) (count : ℚ)
  | poisson (lambda : ℚ) (count : ℚ)
  | exponential (lambda : ℚ) (count : ℚ)
deriving DecidableEq

/-- `POST /api/distributions/:name/generate` from `src/server.js`: the
`!parameters || count <= 0` guard, catalog lookup, parameter validation, then
the `switch (name)` whose `default` rejects gamma. -/
def generateRoute (name : String) (parameters : Option Params) (count : ℚ) :
    Except String GenCall :=
  match parameters with
  | none => .error "Missing parameters or invalid count"
  | some ps =>
    if count ≤ 0 then .error "Missing parameters or invalid count"
    else
      match availableDistributions.find? (fun d => d.name == name) with
      | none => .error "Distribution not found"
      | some dist =>
        if ¬ validateParameters dist ps then .error "Invalid parameters"
        else
          match name with
          | "normal" => .ok (.normal (getParam ps "mu") (getParam ps "sigma") count)
          | "uniform" => .ok (.uniform (getParam ps "a") (getParam ps "b") count)
          | "binomial" => .ok (.binomial (getParam ps "n") (getParam ps "p") count)
          | "poisson" => .ok (.poisson (getParam ps "lambda") count)
          | "exponential" => .ok (.exponential (getParam ps "lambda") count)
          | _ => .error "Generation not implemented for this distribution"

/-- The gamma entry of `availableDistributions` (the record
`calculateRoute`/`generateRoute` find for `name = "gamma"`). -/
def gammaDistribution : Distribution :=
  { name := "gamma", displayName := "Gamma Distribution",
    descriptionText := "Two-parameter family of continuous probability distributions",
    parameters := ["shape", "rate"], constraints := [("shape", ">0"), ("rate", ">0")] }

/-- The evaluation types each distribution supports, per the specification's
table (spec-side definition, to be compared with the source dispatch). -/
def specSupportedTypes : String → List String
  | "normal" => ["pdf", "cdf"]
  | "uniform" => ["pdf", "cdf"]
  | "binomial" => ["pmf", "cdf"]
  | "poisson" => ["pmf", "cdf"]
  | "exponential" => ["pdf", "cdf"]
  | "gamma" => ["pdf"]
  | _ => []

/-! ### Confidence-interval engine (client components) -/

/-- `ConfidenceIntervalType` from the client code. -/
inductive CIType where
  | twoSided
  | oneSidedLower
  | oneSidedUpper
deriving DecidableEq

/-- A JS-number interval endpoint: finite, `Infinity`, or `-Infinity`. -/
inductive Bound where
  | negInf
  | finite (x : ℝ)
  | posInf

/-- Result of the known-variance branch of `handleCalculate` in
`PairedMeanCI.tsx`. -/
structure PairedCIResult where
  lower : Bound
  upper : Bound
  marginOfError : ℝ
  method : String
  criticalValue : ℝ
  meanDiff : ℝ

/-- The known-variance branch of `handleCalculate` in
`src/client/components/PairedMeanCI.tsx` (lines 44–97): empty/length guards,
positivity of the supplied population variance, per-pair differences
`before[i] - after[i]`, standard error `sqrt(variance)/sqrt(n)`, z critical
value (at `2·confidence − 1` for either one-sided type), and the interval
branches exactly as written there (`one-sided-lower` sets `lower = -Infinity`
and `upper = meanDiff + marginOfError`; the final `else` is `one-sided-upper`).
`zCrit` stands for the imported `getZCriticalValue`. -/
noncomputable def pairedHandleCalculate (zCrit : ℝ → ℝ) (before after : List ℝ)
    (variance confidence : ℝ) (it : CIType) : Except String PairedCIResult :=
  if before.length = 0 ∨ after.length = 0 then .error "Data cannot be empty"
  else if before.length ≠ after.length then
    .error "Before and after datasets must have the same length"
  else if variance ≤ 0 then .error "Population variance must be a positive number"
  else
    let differences := (before.zip after).map fun p => p.1 - p.2
    let meanDiff := differences.foldl (· + ·) 0 / (differences.length : ℝ)
    let standardError := Real.sqrt variance / Real.sqrt (differences.length : ℝ)
    let criticalValue :=
      if it = CIType.twoSided then zCrit confidence else zCrit (2 * confidence - 1)
    let marginOfError := criticalValue * standardError
    if it = CIType.twoSided then
      .ok { lower := .finite (meanDiff - marginOfError),
            upper := .finite (meanDiff + marginOfError),
            marginOfError := marginOfError, method := "配对样本Z检验（方差已知）",
            criticalValue := criticalValue, meanDiff := meanDiff }
    else if it = CIType.oneSidedLower then
      .ok { lower := .negInf,
            upper := .finite (meanDiff + marginOfError),
            marginOfError := marginOfError, method := "配对样本Z检验（方差已知）",
            criticalValue := criticalValue, meanDiff := meanDiff }
    else
      .ok { lower := .finite (meanDiff - marginOfError),
            upper := .posInf,
            marginOfError := marginOfError, method := "配对样本Z检验（方差已知）",
            criticalValue := criticalValue, meanDiff := meanDiff }

/-- The `method` selector of `TwoSampleCIComponent`. -/
inductive TwoSampleMethod where
  | pooled
  | welch
  | paired
deriving DecidableEq

/-- Result record of `calculate` in `TwoSampleCIComponent`
(`AIDataGenerator.tsx`). -/
structure TwoSampleCIResult where
  lower : Bound
  upper : Bound
  marginOfError : ℝ
  method : String
  criticalValue : ℝ
  meanDiff : ℝ
  mean1 : ℝ
  mean2 : ℝ
  n1 : ℕ
  n2 : ℕ

/-- The known-variance part of `calculate` in `TwoSampleCIComponent`
(`src/client/components/AIDataGenerator.tsx`, lines 677–783): empty guard,
paired length guard, positivity of both supplied variances, then either the
paired z branch (`varDiff = var1 + var2`, `SE = sqrt(varDiff/n)`) or the
independent z branch (`SE = sqrt(var1/n1 + var2/n2)`); in both, the z critical
value is taken at `2·confidenceLevel − 1` for either one-sided type, and
`one-sided-lower` keeps `upper = Infinity` with `lower = meanDiff - margin`,
while `one-sided-upper` keeps `lower = -Infinity` with
`upper = meanDiff + margin`. -/
noncomputable def twoSampleCalculateKnown (zCrit : ℝ → ℝ) (data1 data2 : List ℝ)
    (confidenceLevel : ℝ) (method : TwoSampleMethod) (it : CIType)
    (var1 var2 : ℝ) : Except String TwoSampleCIResult :=
  if data1.length = 0 ∨ data2.length = 0 then .error "Dataset cannot be empty"
  else if method = TwoSampleMethod.paired ∧ data1.length ≠ data2.length then
    .error "Paired samples must have the same length"
  else if var1 ≤ 0 then .error "Population variance for dataset 1 must be a positive number"
  else if var2 ≤ 0 then .error "Population variance for dataset 2 must be a positive number"
  else
    let mean1 := data1.foldl (· + ·) 0 / (data1.length : ℝ)
    let mean2 := data2.foldl (· + ·) 0 / (data2.length : ℝ)
    let zCritical :=
      if it = CIType.twoSided then zCrit confidenceLevel
      else zCrit (2 * confidenceLevel - 1)
    if method = TwoSampleMethod.paired then
      let differences := (data1.zip data2).map fun p => p.1 - p.2
      let meanDiff := differences.foldl (· + ·) 0 / (differences.length : ℝ)
      let varDiff := var1 + var2
      let standardError := Real.sqrt (varDiff / (differences.length : ℝ))
      let marginOfError := zCritical * standardError
      let bounds : Bound × Bound :=
        if it = CIType.twoSided then
          (.finite (meanDiff - marginOfError), .finite (meanDiff + marginOfError))
        else if it = CIType.oneSidedLower then (.finite (meanDiff - marginOfError), .posInf)
        else (.negInf, .finite (meanDiff + marginOfError))
      .ok { lower := bounds.1, upper := bounds.2, marginOfError := marginOfError,
            method := "Paired Samples Z-test (Known Variance)",
            criticalValue := zCritical, meanDiff := meanDiff, mean1 := mean1,
            mean2 := mean2, n1 := data1.length, n2 := data2.length }
    else
      let meanDiff := mean1 - mean2
      let standardError :=
        Real.sqrt (var1 / (data1.length : ℝ) + var2 / (data2.length : ℝ))
      let marginOfError := zCritical * standardError
      let bounds : Bound × Bound :=
        if it = CIType.twoSided then
          (.finite (meanDiff - marginOfError), .finite (meanDiff + marginOfError))
        else if it = CIType.oneSidedLower then (.finite (meanDiff - marginOfError), .posInf)
        else (.negInf, .finite (meanDiff + marginOfError))
      .ok { lower := bounds.1, upper := bounds.2, marginOfError := marginOfError,
            method := if method = TwoSampleMethod.pooled then
                "Two Sample Z-test (Pooled) with Known Variance"
              else "Two Sample Z-test (Welch) with Known Variance",
            criticalValue := zCritical, meanDiff := meanDiff, mean1 := mean1,
            mean2 := mean2, n1 := data1.length, n2 := data2.length }

/-- Result record of the one-sample confidence-interval computation (field
names as consumed by `BasicStatisticsTab`). -/
structure OneSampleCIResult where
  lowerBound : Bound
  upperBound : Bound
  marginOfError : ℝ
  method : String
  criticalValue : ℝ
  mean : ℝ

/-- Modelled from the spec: `calculateOneSampleMeanCI` lives in the client
`utils/statistics` module, which is not among the provided sources (only its
callers are).  Following the spec: standard error `√(σ²/n)` when a known
population variance is supplied (z critical value, unconditionally) and
`s/√n` otherwise (t critical value at `n − 1` degrees of freedom); a one-sided
interval at confidence `c` takes its critical value at `2c − 1`; two-sided →
`[mean − margin, mean + margin]`, one-sided-lower → `[mean − margin, +∞)`,
one-sided-upper → `(−∞, mean + margin]`.  `zCrit`/`tCrit` stand for the
normal and t critical-value functions, also in the missing module. -/
noncomputable def calculateOneSampleMeanCI (zCrit : ℝ → ℝ) (tCrit : ℝ → ℕ → ℝ)
    (data : List ℝ) (confidenceLevel : ℝ) (knownVariance : Option ℝ)
    (it : CIType) : Except String OneSampleCIResult :=
  if data.length = 0 then .error "Dataset cannot be empty"
  else
    let n := data.length
    let mean := data.foldl (· + ·) 0 / (n : ℝ)
    let level := if it = CIType.twoSided then confidenceLevel else 2 * confidenceLevel - 1
    match knownVariance with
    | some v =>
      if v ≤ 0 then .error "Population variance must be a positive number"
      else
        let standardError := Real.sqrt (v / (n : ℝ))
        let criticalValue := zCrit level
        let marginOfError := criticalValue * standardError
        let bounds : Bound × Bound :=
          if it = CIType.twoSided then
            (.finite (mean - marginOfError), .finite (mean + marginOfError))
          else if it = CIType.oneSidedLower then (.finite (mean - marginOfError), .posInf)
          else (.negInf, .finite (mean + marginOfError))
        .ok { lowerBound := bounds.1, upperBound := bounds.2,
              marginOfError := marginOfError, method := "z (known variance)",
              criticalValue := criticalValue, mean := mean }
    | none =>
      let s2 := (data.map (fun x => (x - mean) ^ 2)).sum / ((n : ℝ) - 1)
      let standardError := Real.sqrt s2 / Real.sqrt (n : ℝ)
      let criticalValue := tCrit level (n - 1)
      let marginOfError := criticalValue * standardError
      let bounds : Bound × Bound :=
        if it = CIType.twoSided then
          (.finite (mean - marginOfError), .finite (mean + marginOfError))
        else if it = CIType.oneSidedLower then (.finite (mean - marginOfError), .posInf)
        else (.negInf, .finite (mean + marginOfError))
      .ok { lowerBound := bounds.1, upperBound := bounds.2,
            marginOfError := marginOfError, method := "t (unknown variance)",
            criticalValue := criticalValue, mean := mean }

/-! ### Helper lemmas -/

theorem foldl_add_sum (l : List ℚ) : ∀ c : ℚ, l.foldl (· + ·) c = c + l.sum := by
  induction l with
  | nil => intro c; simp
  | cons x xs ih => intro c; simp [ih, add_assoc]

theorem foldl_add_map (f : ℚ → ℚ) (l : List ℚ) : ∀ c : ℚ,
    l.foldl (fun a b => a + f b) c = c + (l.map f).sum := by
  induction l with
  | nil => intro c; simp
  | cons x xs ih => intro c; simp [ih, add_assoc]

theorem foldl_factorial_eq (m : ℕ) : ∀ c : ℤ,
    (List.range m).foldl (fun (r : ℤ) (i : ℕ) => r * ((i : ℤ) + 2)) c = c * ((m + 1).factorial : ℤ) := by
  induction m with
  | zero => intro c; simp [Nat.factorial]
  | succ m ih =>
    intro c
    rw [List.range_succ, List.foldl_append, ih]
    simp only [List.foldl_cons, List.foldl_nil]
    push_cast [Nat.factorial_succ (m + 1)]
    ring

theorem foldl_choose_eq (N : ℕ) : ∀ j : ℕ, j ≤ N →
    (List.range j).foldl (fun (c : ℚ) (i : ℕ) => c * ((N : ℚ) - (i : ℚ)) / ((i : ℚ) + 1)) 1 =
      (N.choose j : ℚ) := by
  intro j
  induction j with
  | zero => intro _; simp
  | succ j ih =>
    intro hj
    rw [List.range_succ, List.foldl_append, ih (by omega)]
    simp only [List.foldl_cons, List.foldl_nil]
    have key := Nat.choose_succ_right_eq N j
    have key' : (N.choose (j + 1) : ℚ) * ((j : ℚ) + 1) =
        (N.choose j : ℚ) * ((N : ℚ) - (j : ℚ)) := by
      have := congrArg (fun t : ℕ => (t : ℚ)) key
      push_cast [Nat.cast_sub (by omega : j ≤ N)] at this
      linarith [this]
    have hj1 : ((j : ℚ) + 1) ≠ 0 := by positivity
    rw [div_eq_iff hj1]
    linarith [key']

/-! ### Claims about the special functions -/

/-- C7: `factorial(n)` returns 1 for `n ∈ {0,1}`, the integer product
`2·3·…·n` (that is, `n!`) for every integer `n ≥ 2`, and the sentinel 0,
without throwing, for every `n < 0`; in particular `factorial(-1) = 0`. -/
theorem c7_factorial_sentinel_and_product :
    (∀ n : ℤ, n < 0 → factorial n = 0) ∧ factorial (-1) = 0 ∧
      factorial 0 = 1 ∧ factorial 1 = 1 ∧
      ∀ n : ℤ, 0 ≤ n → factorial n = (n.toNat.factorial : ℤ) := by
  refine ⟨fun n hn => by simp [factorial, hn], by decide, by decide, by decide, ?_⟩
  intro n hn
  simp only [factorial]
  rw [if_neg (by omega : ¬ n < 0)]
  by_cases h01 : n = 0 ∨ n = 1
  · rw [if_pos h01]
    rcases h01 with h | h <;> subst h <;> decide
  · rw [if_neg h01]
    have h2 : 2 ≤ n := by omega
    rw [foldl_factorial_eq, one_mul]
    congr 2
    omega

/-- C7 witness: concrete instances of the sentinel and of the product. -/
theorem c7_factorial_witness : factorial (-3) = 0 ∧ factorial 5 = 120 := by
  refine ⟨c7_factorial_sentinel_and_product.1 (-3) (by decide), ?_⟩
  rw [c7_factorial_sentinel_and_product.2.2.2.2 5 (by decide)]
  decide

/-- C8: `comb(n, k)` returns 0 for `k < 0` and for `k > n`, and otherwise
(including the boundaries `k = 0`, `k = n`) equals the binomial coefficient
`C(n, k)`; in particular `comb(5, 7) = 0`. -/
theorem c8_comb_binomial :
    (∀ n k : ℤ, k < 0 ∨ n < k → comb n k = 0) ∧ comb 5 7 = 0 ∧
      ∀ n k : ℤ, 0 ≤ k → k ≤ n → comb n k = (n.toNat.choose k.toNat : ℚ) := by
  refine ⟨fun n k h => by simp only [comb]; rw [if_pos (by omega)], by decide, ?_⟩
  intro n k hk hkn
  obtain ⟨N, rfl⟩ : ∃ N : ℕ, n = (N : ℤ) := ⟨n.toNat, (Int.toNat_of_nonneg (hk.trans hkn)).symm⟩
  obtain ⟨K, rfl⟩ : ∃ K : ℕ, k = (K : ℤ) := ⟨k.toNat, (Int.toNat_of_nonneg hk).symm⟩
  have hKN : K ≤ N := by exact_mod_cast hkn
  simp only [comb]
  rw [if_neg (by omega : ¬ ((K : ℤ) < 0 ∨ (K : ℤ) > (N : ℤ)))]
  by_cases hb : (K : ℤ) = 0 ∨ (K : ℤ) = (N : ℤ)
  · rw [if_pos hb]
    rcases hb with h | h
    · have : K = 0 := by omega
      subst this; simp
    · have : K = N := by omega
      subst this; simp
  · rw [if_neg hb]
    have hK0 : 0 < K := by omega
    have hKltN : K < N := by omega
    simp only [Int.cast_natCast]
    rcases le_or_lt (K : ℤ) ((N : ℤ) - (K : ℤ)) with hmin | hmin
    · rw [min_eq_left hmin]
      have htn : ((K : ℤ)).toNat = K := Int.toNat_natCast K
      rw [htn, foldl_choose_eq N K hKN]
      simp
    · rw [min_eq_right hmin.le]
      have htn : (((N : ℤ) - (K : ℤ))).toNat = N - K := by omega
      rw [htn, foldl_choose_eq N (N - K) (by omega)]
      rw [Nat.choose_symm hKN]
      simp

/-- C8 witness: concrete instances of the out-of-range sentinel and of the
binomial value. -/
theorem c8_comb_witness : comb 4 (-1) = 0 ∧ comb 10 3 = 120 := by
  refine ⟨c8_comb_binomial.1 4 (-1) (by decide), ?_⟩
  rw [c8_comb_binomial.2.2 10 3 (by decide) (by decide)]
  decide

/-! ### Claims about the descriptive statistics -/

/-- C4: for every non-empty sample, `calculateStats` returns the population
variance (sum of squared deviations from the mean divided by `n`), the median
as the average of the two central order statistics for even `n` and the single
central one for odd `n`, and the nearest-rank quartiles
`sorted[floor(n·0.25)]` / `sorted[floor(n·0.75)]` of the sorted copy (a sorted
permutation of the sample), with no interpolation; in particular
`describe([1,2,3,4,5])` yields mean 3, median 3, variance 2, q1 2, q3 4. -/
theorem c4_describe_conventions :
    (∀ data : List ℚ, data ≠ [] →
      (calculateStats data).mean = data.sum / (data.length : ℚ) ∧
      (calculateStats data).variance =
        (data.map (fun x => (x - data.sum / (data.length : ℚ)) ^ 2)).sum /
          (data.length : ℚ) ∧
      (calculateStats data).median =
        (if data.length % 2 = 0 then
          ((data.mergeSort (fun a b => a ≤ b)).getD (data.length / 2 - 1) 0 +
            (data.mergeSort (fun a b => a ≤ b)).getD (data.length / 2) 0) / 2
         else (data.mergeSort (fun a b => a ≤ b)).getD (data.length / 2) 0) ∧
      (calculateStats data).q1 =
        (data.mergeSort (fun a b => a ≤ b)).getD (((data.length : ℚ) * 0.25).floor.toNat) 0 ∧
      (calculateStats data).q3 =
        (data.mergeSort (fun a b => a ≤ b)).getD (((data.length : ℚ) * 0.75).floor.toNat) 0 ∧
      (data.mergeSort (fun a b => a ≤ b)).Perm data ∧
      (data.mergeSort (fun a b => a ≤ b)).Sorted (· ≤ ·)) ∧
    ((calculateStats [1, 2, 3, 4, 5]).mean = 3 ∧
      (calculateStats [1, 2, 3, 4, 5]).median = 3 ∧
      (calculateStats [1, 2, 3, 4, 5]).variance = 2 ∧
      (calculateStats [1, 2, 3, 4, 5]).q1 = 2 ∧
      (calculateStats [1, 2, 3, 4, 5]).q3 = 4) := by
  constructor
  · intro data h
    refine ⟨?_, ?_, rfl, rfl, rfl, List.mergeSort_perm data _, ?_⟩
    · simp [calculateStats, foldl_add_sum]
    · simp [calculateStats, foldl_add_sum, foldl_add_map]
    · exact List.sorted_mergeSort' data
  · have hs : ([1, 2, 3, 4, 5] : List ℚ).mergeSort (fun a b => a ≤ b) = [1, 2, 3, 4, 5] :=
      List.mergeSort_eq_self (by decide)
    have hq1 : ((5 : ℚ) / 4).floor = 1 := by
      rw [show ((5 : ℚ) / 4).floor = ⌊(5 : ℚ) / 4⌋ from rfl, Int.floor_eq_iff]
      norm_num
    have hq3 : ((15 : ℚ) / 4).floor = 3 := by
      rw [show ((15 : ℚ) / 4).floor = ⌊(15 : ℚ) / 4⌋ from rfl, Int.floor_eq_iff]
      norm_num
    refine ⟨?_, ?_, ?_, ?_, ?_⟩ <;> simp [calculateStats, hs] <;>
      first
        | decide
        | (norm_num; done)
        | (norm_num; rw [hq1]; decide)
        | (norm_num; rw [hq3]; decide)

/-- C4 witness: the general part applied to the concrete sample `[1,2,3,4,5]`. -/
theorem c4_describe_witness :
    (calculateStats [1, 2, 3, 4, 5]).mean =
        ([1, 2, 3, 4, 5] : List ℚ).sum / (([1, 2, 3, 4, 5] : List ℚ).length : ℚ) ∧
      (calculateStats [1, 2, 3, 4, 5]).variance =
        (([1, 2, 3, 4, 5] : List ℚ).map
            (fun x => (x - ([1, 2, 3, 4, 5] : List ℚ).sum /
              (([1, 2, 3, 4, 5] : List ℚ).length : ℚ)) ^ 2)).sum /
          (([1, 2, 3, 4, 5] : List ℚ).length : ℚ) :=
  ⟨(c4_describe_conventions.1 [1, 2, 3, 4, 5] (by decide)).1,
    (c4_describe_conventions.1 [1, 2, 3, 4, 5] (by decide)).2.1⟩

/-- C5: `calculateStats` sorts a copy and never mutates the caller-owned
sample: in the state-passing view of a call, running it twice from the same
sample yields identical results, the sample is returned unchanged, and the
sorted list used internally is merely a permutation of the (untouched)
sample. -/
theorem c5_describe_no_mutation (data : List ℚ) (h : data ≠ []) :
    (calculateStatsCall ((calculateStatsCall data).2)).1 = (calculateStatsCall data).1 ∧
      (calculateStatsCall ((calculateStatsCall data).2)).2 = data ∧
      (data.mergeSort (fun a b => a ≤ b)).Perm data :=
  ⟨rfl, rfl, List.mergeSort_perm data _⟩

/-- C5 witness: the no-mutation statement at the concrete sample `[3,1,2]`. -/
theorem c5_describe_witness :
    (calculateStatsCall ((calculateStatsCall [3, 1, 2]).2)).1 =
        (calculateStatsCall [3, 1, 2]).1 ∧
      (calculateStatsCall ((calculateStatsCall [3, 1, 2]).2)).2 = ([3, 1, 2] : List ℚ) ∧
      (([3, 1, 2] : List ℚ).mergeSort (fun a b => a ≤ b)).Perm [3, 1, 2] :=
  c5_describe_no_mutation [3, 1, 2] (by decide)

/-! ### Claim about the error-function approximation -/

/-- C6: the sign-preserving Abramowitz–Stegun `erf` returns exactly `10⁻⁹` at
`x = 0` (well within the stated `1.5e-7` accuracy), so for every mean `μ` and
every `σ > 0`, `normalCDF(μ, μ, σ) = 0.5·(1 + erf 0)`, which is within
`1.5e-7` of `0.5`. -/
theorem c6_normalCDF_at_mean (mu sigma : ℝ) (hs : 0 < sigma) :
    erf 0 = 1 / 10 ^ 9 ∧ |erf 0 - 0| ≤ 1.5e-7 ∧
      normalCDF mu mu sigma = 0.5 * (1 + erf 0) ∧
      |normalCDF mu mu sigma - 0.5| ≤ 1.5e-7 := by
  have h0 : erf 0 = 1 / 10 ^ 9 := by
    simp only [erf]
    rw [if_pos (le_refl (0 : ℝ))]
    rw [abs_zero]
    norm_num [Real.exp_zero]
  have hcdf : normalCDF mu mu sigma = 0.5 * (1 + erf 0) := by
    simp only [normalCDF]
    rw [sub_self, zero_div, zero_div]
  refine ⟨h0, ?_, hcdf, ?_⟩
  · rw [h0]
    rw [show (1 : ℝ) / 10 ^ 9 - 0 = 1 / 10 ^ 9 by ring]
    rw [abs_of_nonneg (by norm_num)]
    norm_num
  · rw [hcdf, h0]
    rw [show (0.5 : ℝ) * (1 + 1 / 10 ^ 9) - 0.5 = 1 / (2 * 10 ^ 9) by ring]
    rw [abs_of_nonneg (by norm_num)]
    norm_num

/-- C6 witness: the CDF-at-the-mean statement at `μ = 0`, `σ = 1`. -/
theorem c6_normalCDF_witness :
    (0 : ℝ) < 1 ∧
      (erf 0 = 1 / 10 ^ 9 ∧ |erf 0 - 0| ≤ 1.5e-7 ∧
        normalCDF 0 0 1 = 0.5 * (1 + erf 0) ∧ |normalCDF 0 0 1 - 0.5| ≤ 1.5e-7) :=
  ⟨by norm_num, c6_normalCDF_at_mean 0 1 (by norm_num)⟩

/-! ### Claims about the confidence-interval engine -/

/-- C1: the claim says every CI code path returns `[estimate − margin, +∞)`
for one-sided-lower and `(−∞, estimate + margin]` for one-sided-upper.  The
`TwoSampleCIComponent` known-variance path does exactly that (last two
conjuncts), but the `PairedMeanCI` known-variance path swaps the two
directions: at the concrete failing input it returns
`lower = −∞, upper = meanDiff + margin` for one-sided-lower and
`lower = meanDiff − margin, upper = +∞` for one-sided-upper (first two
conjuncts), contradicting the component's own result rendering, which
formats a one-sided-lower result as `[lower, +∞)`. -/
theorem c1_paired_one_sided_bounds_swapped (zCrit : ℝ → ℝ) :
    (pairedHandleCalculate zCrit [10, 12, 14] [8, 11, 12] 1 0.95
          CIType.oneSidedLower).toOption.map (fun r => (r.lower, r.upper)) =
      some (Bound.negInf,
        Bound.finite (5 / 3 + zCrit (2 * 0.95 - 1) * (Real.sqrt 1 / Real.sqrt 3))) ∧
    (pairedHandleCalculate zCrit [10, 12, 14] [8, 11, 12] 1 0.95
          CIType.oneSidedUpper).toOption.map (fun r => (r.lower, r.upper)) =
      some (Bound.finite (5 / 3 - zCrit (2 * 0.95 - 1) * (Real.sqrt 1 / Real.sqrt 3)),
        Bound.posInf) ∧
    (twoSampleCalculateKnown zCrit [10, 12, 14] [8, 11, 12] 0.95 TwoSampleMethod.paired
          CIType.oneSidedLower 1 1).toOption.map (fun r => (r.lower, r.upper)) =
      some (Bound.finite (5 / 3 - zCrit (2 * 0.95 - 1) * Real.sqrt (2 / 3)),
        Bound.posInf) ∧
    (twoSampleCalculateKnown zCrit [10, 12, 14] [8, 11, 12] 0.95 TwoSampleMethod.paired
          CIType.oneSidedUpper 1 1).toOption.map (fun r => (r.lower, r.upper)) =
      some (Bound.negInf,
        Bound.finite (5 / 3 + zCrit (2 * 0.95 - 1) * Real.sqrt (2 / 3))) := by
  refine ⟨?_, ?_, ?_, ?_⟩ <;>
    simp [pairedHandleCalculate, twoSampleCalculateKnown, Except.toOption] <;>
    norm_num

/-- C2 counterexample: at `before = [10,12,14]`, `after = [8,11,12]`,
confidence 0.95, known population variance 1 for each sample, the computed
mean of the per-pair differences is `5/3 ≈ 1.667`, not `2.333` (not even
within rounding distance `1/2` of it). -/
theorem c2_meanDiff_not_2333 :
    (twoSampleCalculateKnown (fun _ => (1.96 : ℝ)) [10, 12, 14] [8, 11, 12] 0.95
          TwoSampleMethod.paired CIType.twoSided 1 1).toOption.map (fun r => r.meanDiff) =
      some (5 / 3) ∧
    (5 : ℝ) / 3 ≠ 2.333 ∧ |(5 : ℝ) / 3 - 2.333| > 1 / 2 := by
  refine ⟨?_, by norm_num, ?_⟩
  · simp [twoSampleCalculateKnown, Except.toOption]
    norm_num
  · rw [abs_of_nonpos (by norm_num)]
    norm_num

/-- C2 (amended): at `before = [10,12,14]`, `after = [8,11,12]`, confidence
0.95, known population variance 1 for each sample, the paired known-variance
path computes mean difference `5/3` (≈ 1.667), and the two-sided result is the
symmetric interval `[5/3 − margin, 5/3 + margin]` centered at that mean
difference. -/
theorem c2_paired_known_symmetric (zCrit : ℝ → ℝ) :
    (twoSampleCalculateKnown zCrit [10, 12, 14] [8, 11, 12] 0.95 TwoSampleMethod.paired
          CIType.twoSided 1 1).toOption.map (fun r => (r.meanDiff, r.lower, r.upper)) =
      some (5 / 3, Bound.finite (5 / 3 - zCrit 0.95 * Real.sqrt (2 / 3)),
        Bound.finite (5 / 3 + zCrit 0.95 * Real.sqrt (2 / 3))) := by
  simp [twoSampleCalculateKnown, Except.toOption]
  norm_num

/-- C3: whenever a known (strictly positive) population variance is supplied,
every embedded CI path (the `PairedMeanCI` known-variance branch, the
`TwoSampleCIComponent` known-variance branch for every method, and the
spec-modelled one-sample path) takes its critical value from the normal
critical-value function `zCrit` — at the given confidence for a two-sided
interval and at `2·conf − 1` for either one-sided direction, independently of
the samples and hence of the sample sizes; both one-sided directions use the
same tail cut, which coincides with the two-sided cut at level `2·conf − 1`. -/
theorem c3_known_variance_z_critical (zCrit : ℝ → ℝ) (tCrit : ℝ → ℕ → ℝ)
    (conf : ℝ) (it : CIType) (before after data1 data2 one : List ℝ)
    (m : TwoSampleMethod) (v v1 v2 : ℝ)
    (hb : before ≠ []) (hba : before.length = after.length) (hv : 0 < v)
    (h1 : data1 ≠ []) (h2 : data2 ≠ []) (h12 : data1.length = data2.length)
    (hv1 : 0 < v1) (hv2 : 0 < v2) (hone : one ≠ []) :
    (pairedHandleCalculate zCrit before after v conf it).toOption.map
        (fun r => r.criticalValue) =
      some (if it = CIType.twoSided then zCrit conf else zCrit (2 * conf - 1)) ∧
    (twoSampleCalculateKnown zCrit data1 data2 conf m it v1 v2).toOption.map
        (fun r => r.criticalValue) =
      some (if it = CIType.twoSided then zCrit conf else zCrit (2 * conf - 1)) ∧
    (calculateOneSampleMeanCI zCrit tCrit one conf (some v) it).toOption.map
        (fun r => r.criticalValue) =
      some (if it = CIType.twoSided then zCrit conf else zCrit (2 * conf - 1)) ∧
    (pairedHandleCalculate zCrit before after v conf CIType.oneSidedLower).toOption.map
        (fun r => r.criticalValue) =
      (pairedHandleCalculate zCrit before after v conf CIType.oneSidedUpper).toOption.map
        (fun r => r.criticalValue) ∧
    (pairedHandleCalculate zCrit before after v conf CIType.oneSidedLower).toOption.map
        (fun r => r.criticalValue) =
      (pairedHandleCalculate zCrit before after v (2 * conf - 1) CIType.twoSided).toOption.map
        (fun r => r.criticalValue) := by
  have hb0 : before.length ≠ 0 := by simpa [List.length_eq_zero] using hb
  have ha0 : after.length ≠ 0 := by rw [← hba]; exact hb0
  have h10 : data1.length ≠ 0 := by simpa [List.length_eq_zero] using h1
  have h20 : data2.length ≠ 0 := by simpa [List.length_eq_zero] using h2
  have hone0 : one.length ≠ 0 := by simpa [List.length_eq_zero] using hone
  rcases it with _ | _ | _ <;> rcases m with _ | _ | _ <;>
    simp [pairedHandleCalculate, twoSampleCalculateKnown, calculateOneSampleMeanCI,
      Except.toOption, hb0, ha0, h10, h20, hone0, hba, h12,
      hv.not_le, hv1.not_le, hv2.not_le]

/-- C3 witness: the critical-value rule at a concrete instantiation
(`zCrit = const 1.96`, confidence 0.95, one-sided-lower, samples `[1, 2]`,
variances 1, Welch method). -/
theorem c3_known_variance_witness :
    (pairedHandleCalculate (fun _ => (1.96 : ℝ)) [1, 2] [1, 2] 1 0.95
        CIType.oneSidedLower).toOption.map (fun r => r.criticalValue) = some 1.96 ∧
    (twoSampleCalculateKnown (fun _ => (1.96 : ℝ)) [1, 2] [1, 2] 0.95 TwoSampleMethod.welch
        CIType.oneSidedLower 1 1).toOption.map (fun r => r.criticalValue) = some 1.96 ∧
    (calculateOneSampleMeanCI (fun _ => (1.96 : ℝ)) (fun _ _ => (2.1 : ℝ)) [1, 2] 0.95
        (some 1) CIType.oneSidedLower).toOption.map (fun r => r.criticalValue) = some 1.96 ∧
    (pairedHandleCalculate (fun _ => (1.96 : ℝ)) [1, 2] [1, 2] 1 0.95
        CIType.oneSidedLower).toOption.map (fun r => r.criticalValue) =
      (pairedHandleCalculate (fun _ => (1.96 : ℝ)) [1, 2] [1, 2] 1 0.95
        CIType.oneSidedUpper).toOption.map (fun r => r.criticalValue) ∧
    (pairedHandleCalculate (fun _ => (1.96 : ℝ)) [1, 2] [1, 2] 1 0.95
        CIType.oneSidedLower).toOption.map (fun r => r.criticalValue) =
      (pairedHandleCalculate (fun _ => (1.96 : ℝ)) [1, 2] [1, 2] 1 (2 * 0.95 - 1)
        CIType.twoSided).toOption.map (fun r => r.criticalValue) :=
  c3_known_variance_z_critical (fun _ => (1.96 : ℝ)) (fun _ _ => (2.1 : ℝ)) 0.95
    CIType.oneSidedLower [1, 2] [1, 2] [1, 2] [1, 2] [1, 2] TwoSampleMethod.welch 1 1 1
    (by simp) rfl (by norm_num) (by simp) (by simp) rfl (by norm_num) (by norm_num) (by simp)

/-! ### Claim about the dispatch of unsupported evaluation types -/

/-- C9: for valid gamma parameters, requesting any calculation type other than
`pdf` for gamma is rejected with an input error, and requesting sample
generation for gamma is rejected by the generate dispatcher's default branch;
more generally, for every catalog distribution, a request for an evaluation
type outside the supported set of the specification's table is answered with
an error — no kernel invocation is selected. -/
theorem c9_gamma_and_unsupported_types_rejected :
    (∀ (ps : Params) (x : ℚ) (t : String),
        validateParameters gammaDistribution ps = true → t ≠ "pdf" →
        calculateRoute "gamma" (some ps) (some x) t =
          .error "Only PDF calculation available for gamma distribution") ∧
    (∀ (ps : Params) (count : ℚ),
        validateParameters gammaDistribution ps = true → 0 < count →
        generateRoute "gamma" (some ps) count =
          .error "Generation not implemented for this distribution") ∧
    (∀ dist ∈ availableDistributions, ∀ (ps : Params) (x : ℚ) (t : String),
        validateParameters dist ps = true → t ∉ specSupportedTypes dist.name →
        ∃ msg, calculateRoute dist.name (some ps) (some x) t = .error msg) := by
  refine ⟨?_, ?_, ?_⟩
  · intro ps x t hval ht
    simp only [calculateRoute]
    rw [show availableDistributions.find? (fun d => d.name == "gamma") =
      some gammaDistribution from rfl]
    simp [hval, ht]
  · intro ps count hval hc
    simp only [generateRoute]
    rw [if_neg (not_le.mpr hc)]
    rw [show availableDistributions.find? (fun d => d.name == "gamma") =
      some gammaDistribution from rfl]
    simp [hval]
  · intro dist hmem ps x t hval ht
    fin_cases hmem <;>
      simp [specSupportedTypes, not_or] at ht <;>
      simp [calculateRoute, availableDistributions, hval, ht]

/-- C9 witness: a cdf request for gamma with valid parameters is rejected with
the gamma-specific error, a generate request for gamma with valid parameters
is rejected by the default branch, and (general conjunct) so is a pmf request
for normal. -/
theorem c9_gamma_witness :
    calculateRoute "gamma" (some [("shape", 1), ("rate", 1)]) (some 0) "cdf" =
      .error "Only PDF calculation available for gamma distribution" ∧
    generateRoute "gamma" (some [("shape", 1), ("rate", 1)]) 10 =
      .error "Generation not implemented for this distribution" ∧
    ∃ msg, calculateRoute "normal" (some [("mu", 0), ("sigma", 1)]) (some 0) "pmf" =
      .error msg :=
  ⟨c9_gamma_and_unsupported_types_rejected.1 [("shape", 1), ("rate", 1)] 0 "cdf"
      (by decide) (by decide),
    c9_gamma_and_unsupported_types_rejected.2.1 [("shape", 1), ("rate", 1)] 10
      (by decide) (by decide),
    c9_gamma_and_unsupported_types_rejected.2.2
      (availableDistributions.getD 0 gammaDistribution) (by decide)
      [("mu", 0), ("sigma", 1)] 0 "pmf" (by decide) (by decide)⟩

/-! ### Claim about the Poisson sampler's support -/

/-- Every value the Knuth loop can return is at least `k₀ − 1` for the entry
counter `k₀`, and at least `k₀` whenever the loop body runs at least once
(i.e. when the entry product exceeds the threshold). -/
theorem generatePoissonLoop_lower_bound (l : ℝ) (us : ℕ → ℝ) :
    ∀ (fuel k : ℕ) (p : ℝ) (v : ℤ), generatePoissonLoop l us fuel k p = some v →
      (k : ℤ) - 1 ≤ v ∧ (p > l → (k : ℤ) ≤ v) := by
  intro fuel
  induction fuel with
  | zero => intro k p v h; simp [generatePoissonLoop] at h
  | succ fuel ih =>
    intro k p v h
    simp only [generatePoissonLoop] at h
    by_cases hp : p > l
    · rw [if_pos hp] at h
      have hrec := ih (k + 1) (p * us k) v h
      have h1 := hrec.1
      push_cast at h1
      constructor
      · omega
      · intro _; omega
    · rw [if_neg hp] at h
      have hv : (k : ℤ) - 1 = v := by
        simpa using h
      exact ⟨hv.le, fun hc => absurd hc hp⟩

/-- C10: for every `λ > 0` and every requested count, each variate produced by
the Poisson sampler is an integer `≥ 0`: the initial product 1 exceeds
`e^{−λ} < 1`, so the multiply-successive-uniforms loop runs at least once and
the pushed value `k − 1` is never negative. -/
theorem c10_poisson_variates_nonneg (lambda : ℝ) (uss : ℕ → ℕ → ℝ) (fuel : ℕ)
    (hl : 0 < lambda) :
    ∀ (count : ℕ) (data : List ℤ), generatePoisson lambda uss fuel count = some data →
      ∀ v ∈ data, 0 ≤ v := by
  intro count
  induction count with
  | zero =>
    intro data h v hv
    simp only [generatePoisson] at h
    obtain rfl : ([] : List ℤ) = data := by simpa using h
    simp at hv
  | succ count ih =>
    intro data h v hv
    simp only [generatePoisson, Option.bind_eq_bind, Option.bind_eq_some] at h
    obtain ⟨w, hw, rest, hrest, hdata⟩ := h
    have hdata' : w :: rest = data := by simpa using hdata
    subst hdata'
    rcases List.mem_cons.mp hv with rfl | hv'
    · have hlt : (1 : ℝ) > Real.exp (-lambda) :=
        Real.exp_lt_one_iff.mpr (by linarith)
      have := (generatePoissonLoop_lower_bound (Real.exp (-lambda)) (uss count)
        fuel 0 1 v hw).2 hlt
      omega
    · exact ih rest hrest v hv'

/-- C10 witness: a concrete run (λ = 1, the random stream constantly 0, fuel
2) produces the variate 0, which is nonnegative. -/
theorem c10_poisson_witness : (0 : ℤ) ≤ 0 :=
  c10_poisson_variates_nonneg 1 (fun _ _ => 0) 2 (by norm_num) 1 [0]
    (by
      have hlt : Real.exp (-1) < 1 := Real.exp_lt_one_iff.mpr (by norm_num)
      have hpos : ¬ Real.exp (-1) < 0 := (Real.exp_pos (-1)).not_lt
      simp [generatePoisson, generatePoissonOne, generatePoissonLoop, hlt, hpos])
    0 (by simp)

end StatWebapp
